import Mathlib

/-
Shallow embedding of `src/src/py4dgeo.cpp` (namespace `py4dgeo`): two adapter
classes, `PCLPointCloud` (wrapping PCL search structures) and `NFPointCloud2`
(wrapping a nanoflann KD-tree), exposing `build_tree` and `radius_search`.

Modelling conventions:
- scalars (`float`, `double`) are embedded as `ℚ`: the adapter itself performs
  no arithmetic except the product `radius * radius`;
- a raw pointer is a base address `Nat` into an explicit flat memory
  `Mem := Nat → ℚ`, so `ptr[k]` is `mem (ptr + k)`;
- the wrapped libraries (PCL's `radiusSearch`, nanoflann's `radiusSearch`) are
  abstract: each adapter method that calls into a wrapped library takes the
  library's behaviour as an explicit function argument and is proved to forward
  to it; theorems quantify over that behaviour;
- a null `shared_ptr` is `Option.none`; dereferencing a null pointer is
  undefined behaviour, embedded as the operation returning `none`.
-/

namespace py4dgeo

/-- Flat memory of `float` cells addressed by `Nat`; a C pointer is a base
address into it. -/
def Mem : Type := Nat → ℚ

/-- `pcl::PointXYZ`: three coordinates. -/
def PointXYZ : Type := ℚ × ℚ × ℚ

instance : DecidableEq PointXYZ := by
  unfold PointXYZ
  infer_instance

/-- Modelled from the spec: the search-strategy selector is a scoped enum
declared in the missing header `py4dgeo.hpp` with the three enumerators
`kdtree`, `octree`, `bruteforce`; as in C++, the type ranges over its whole
underlying integral type, with the enumerators taking the default values
0, 1, 2. -/
abbrev SearchStrategy : Type := Int

/-- The enumerator `SearchStrategy::kdtree`. -/
def SearchStrategy.kdtree : SearchStrategy := 0

/-- The enumerator `SearchStrategy::octree`. -/
def SearchStrategy.octree : SearchStrategy := 1

/-- The enumerator `SearchStrategy::bruteforce`. -/
def SearchStrategy.bruteforce : SearchStrategy := 2

/-- The PCL search-structure variants that `build_tree` can install:
`pcl::search::KdTree`, `pcl::search::Octree` (carrying its construction
resolution), `pcl::search::BruteForce`. -/
inductive SearchVariant : Type where
  | kdtree : SearchVariant
  | octree : ℚ → SearchVariant
  | bruteforce : SearchVariant
deriving DecidableEq

/-- A constructed PCL search structure: its variant and the input cloud
installed by `setInputCloud` (`none` until `setInputCloud` is called). -/
structure SearchStruct : Type where
  variant : SearchVariant
  inputCloud : Option (List PointXYZ)
deriving DecidableEq

/-- The `PCLPointCloud` adapter state: the owned point cloud `_cloud`
(a `pcl::PointCloud<pcl::PointXYZ>`) and the `_search` shared pointer,
null (`none`) on a freshly constructed object. -/
structure PCLPointCloud : Type where
  _cloud : List PointXYZ
  _search : Option SearchStruct
deriving DecidableEq

/-- The loop body of the `PCLPointCloud` constructor: for each
`i < n` it builds `pcl::PointXYZ point(ptr[3*i], ptr[3*i+1], ptr[3*i+2])`
and stores it with `(*_cloud)[i] = point`. -/
def pclConstructLoop (mem : Mem) (ptr n : Nat) (cloud : List PointXYZ) :
    List PointXYZ :=
  (List.range n).foldl
    (fun c i =>
      c.set i (mem (ptr + 3 * i), mem (ptr + 3 * i + 1), mem (ptr + 3 * i + 2)))
    cloud

/-- `PCLPointCloud::PCLPointCloud(const float* ptr, std::size_t n)`:
allocates a fresh cloud, `resize(n)` (default points, i.e. zeros), then the
copy loop; `_search` is left as a null shared pointer. -/
def PCLPointCloud.construct (mem : Mem) (ptr n : Nat) : PCLPointCloud :=
  PCLPointCloud.mk
    (pclConstructLoop mem ptr n (List.replicate n ((0 : ℚ), (0 : ℚ), (0 : ℚ))))
    none

/-- `PCLPointCloud::build_tree(SearchStrategy strategy)`: three successive
`if` statements each reset `_search` to a fresh structure when the strategy
matches, then `_search->setInputCloud(_cloud)` dereferences `_search`
unconditionally; the dereference of a still-null `_search` is undefined
behaviour, embedded as `none`. -/
def PCLPointCloud.build_tree (pc : PCLPointCloud) (strategy : SearchStrategy) :
    Option PCLPointCloud :=
  let s0 := pc._search
  let s1 := if strategy = SearchStrategy.kdtree then
      some (SearchStruct.mk SearchVariant.kdtree none) else s0
  let s2 := if strategy = SearchStrategy.octree then
      some (SearchStruct.mk (SearchVariant.octree 128) none) else s1
  let s3 := if strategy = SearchStrategy.bruteforce then
      some (SearchStruct.mk SearchVariant.bruteforce none) else s2
  match s3 with
  | none => none
  | some st =>
      some (PCLPointCloud.mk pc._cloud (some (SearchStruct.mk st.variant (some pc._cloud))))

/-- `PCLPointCloud::radius_search(p, r, indices, dist)`: a single statement
`return _search->radiusSearch(p, r, indices, dist);`. The wrapped PCL search
is the abstract argument `lib`, taking the search structure, the query point,
the radius, and the incoming contents of the by-reference vectors, and
producing the call's whole observable outcome (of abstract type `ρ`, e.g. the
final vector contents paired with the returned `int`). A null `_search` makes
the dereference undefined behaviour (`none`). -/
def PCLPointCloud.radius_search {ρ : Type}
    (lib : SearchStruct → PointXYZ → ℚ → List Int × List ℚ → ρ)
    (pc : PCLPointCloud) (p : PointXYZ) (r : ℚ)
    (indices : List Int) (dist : List ℚ) : Option ρ :=
  match pc._search with
  | none => none
  | some s => some (lib s p r (indices, dist))

/-- Modelled from the spec: the `NFPointCloud2` nanoflann dataset adaptor
(declared in the missing header `py4dgeo.hpp`); the KD-tree holds the
dimension, a reference to the adaptor (which holds only the raw `data`
pointer and the point count `n`), and the leaf-size parameter passed through
`nanoflann::KDTreeSingleIndexAdaptorParams`. -/
structure KDTree : Type where
  dim : Nat
  dataPtr : Nat
  n : Nat
  leaf : Int
deriving DecidableEq

/-- `nanoflann::SearchParams`, default-constructed by `radius_search`. -/
structure SearchParams : Type where
  checks : Int
  eps : ℚ
  sorted : Bool
deriving DecidableEq

/-- The default-constructed `nanoflann::SearchParams()`. -/
def defaultSearchParams : SearchParams := SearchParams.mk 32 0 true

/-- The `NFPointCloud2` adapter state: the raw pointer `data`, the point
count `n`, and the `_search` shared pointer to the nanoflann KD-tree, null
(`none`) on a freshly constructed object. -/
structure NFPointCloud2 : Type where
  data : Nat
  n : Nat
  _search : Option KDTree
deriving DecidableEq

/-- `NFPointCloud2::NFPointCloud2(float* ptr, std::size_t n)`: stores the raw
pointer and the count; nothing is copied and no memory is read. -/
def NFPointCloud2.construct (ptr n : Nat) : NFPointCloud2 :=
  NFPointCloud2.mk ptr n none

/-- `NFPointCloud2::build_tree(int leaf)`: installs a fresh KD-tree built
over `*this` (so the tree references the adapter's raw pointer and count)
with dimension 3 and the given leaf parameter, then `buildIndex()`. -/
def NFPointCloud2.build_tree (pc : NFPointCloud2) (leaf : Int) : NFPointCloud2 :=
  NFPointCloud2.mk pc.data pc.n (some (KDTree.mk 3 pc.data pc.n leaf))

/-- `NFPointCloud2::radius_search(query, radius, result)`: constructs default
`nanoflann::SearchParams` and returns
`_search->radiusSearch(query, radius * radius, result, params)`. The wrapped
nanoflann search is the abstract argument `nflib`; because nanoflann reads
the points through the adaptor's raw pointer at call time, `nflib` receives
the current memory `mem` alongside the tree, the query pointer, the
threshold, the incoming result vector, and the search parameters. A null
`_search` makes the dereference undefined behaviour (`none`). -/
def NFPointCloud2.radius_search {ρ : Type}
    (nflib : KDTree → Mem → Nat → ℚ → List (Nat × ℚ) → SearchParams → ρ)
    (mem : Mem) (pc : NFPointCloud2) (query : Nat) (radius : ℚ)
    (result : List (Nat × ℚ)) : Option ρ :=
  match pc._search with
  | none => none
  | some t => some (nflib t mem query (radius * radius) result defaultSearchParams)

/-- The point the `PCLPointCloud` constructor builds for index `i`. -/
def pclPointAt (mem : Mem) (ptr i : Nat) : PointXYZ :=
  (mem (ptr + 3 * i), mem (ptr + 3 * i + 1), mem (ptr + 3 * i + 2))

lemma set_append_of_len {α : Type} (l1 l2 : List α) (a : α) (n : Nat)
    (h : n = l1.length) : (l1 ++ l2).set n a = l1 ++ l2.set 0 a := by
  subst h
  induction l1 with
  | nil => rfl
  | cons x xs ih => simp [List.set, ih]

lemma pclConstructLoop_eq (mem : Mem) (ptr : Nat) :
    ∀ (n : Nat) (cloud : List PointXYZ), n ≤ cloud.length →
      pclConstructLoop mem ptr n cloud =
        (List.range n).map (pclPointAt mem ptr) ++ cloud.drop n := by
  intro n
  induction n with
  | zero => intro cloud h; simp [pclConstructLoop]
  | succ n ih =>
      intro cloud h
      have hn : n < cloud.length := Nat.lt_of_lt_of_le (Nat.lt_succ_self n) h
      have hl : pclConstructLoop mem ptr (n + 1) cloud
          = (pclConstructLoop mem ptr n cloud).set n (pclPointAt mem ptr n) := by
        simp [pclConstructLoop, List.range_succ, List.foldl_append, pclPointAt]
      rw [hl, ih cloud (Nat.le_of_lt hn)]
      rw [set_append_of_len _ _ _ n (by simp)]
      rw [List.drop_eq_getElem_cons hn, List.set_cons_zero]
      rw [List.range_succ, List.map_append, List.append_assoc]
      rfl

lemma construct_cloud (mem : Mem) (ptr n : Nat) :
    (PCLPointCloud.construct mem ptr n)._cloud =
      (List.range n).map (pclPointAt mem ptr) := by
  unfold PCLPointCloud.construct
  rw [pclConstructLoop_eq mem ptr n _ (by simp)]
  simp

lemma build_tree_eq (pc : PCLPointCloud) (strategy : SearchStrategy) :
    pc.build_tree strategy =
      match (if strategy = SearchStrategy.bruteforce then
          some (SearchStruct.mk SearchVariant.bruteforce none)
        else if strategy = SearchStrategy.octree then
          some (SearchStruct.mk (SearchVariant.octree 128) none)
        else if strategy = SearchStrategy.kdtree then
          some (SearchStruct.mk SearchVariant.kdtree none)
        else pc._search) with
      | none => none
      | some st =>
          some (PCLPointCloud.mk pc._cloud
            (some (SearchStruct.mk st.variant (some pc._cloud)))) := rfl

lemma build_tree_of_search_some (pc : PCLPointCloud) (strategy : SearchStrategy)
    (s : SearchStruct) (hs : pc._search = some s) :
    ∃ pc2, pc.build_tree strategy = some pc2 := by
  rw [build_tree_eq]
  split
  · rename_i heq
    exfalso
    rw [hs] at heq
    split at heq
    · simp at heq
    · split at heq
      · simp at heq
      · split at heq
        · simp at heq
        · simp at heq
  · exact ⟨_, rfl⟩

lemma build_tree_search_isSome {pc pc2 : PCLPointCloud} {strategy : SearchStrategy}
    (h : pc.build_tree strategy = some pc2) : ∃ st, pc2._search = some st := by
  rw [build_tree_eq] at h
  split at h
  · exact absurd h (by simp)
  · cases h
    exact ⟨_, rfl⟩

/-- C2: for every float buffer and count `n`, the `PCLPointCloud` constructor
converts the flat coordinate buffer into the wrapped library's point
container: the stored cloud has exactly `n` points, and for every `i < n`
point `i` has coordinates `(ptr[3*i], ptr[3*i+1], ptr[3*i+2])`. -/
theorem construct_copies_buffer (mem : Mem) (ptr n : Nat) :
    (PCLPointCloud.construct mem ptr n)._cloud.length = n ∧
    ∀ i, i < n →
      (PCLPointCloud.construct mem ptr n)._cloud[i]? =
        some (mem (ptr + 3 * i), mem (ptr + 3 * i + 1), mem (ptr + 3 * i + 2)) := by
  constructor
  · rw [construct_cloud]
    simp
  · intro i hi
    rw [construct_cloud]
    simp [List.getElem?_range, hi, pclPointAt]

/-- Witness for C2 at `mem k = k`, `ptr = 0`, `n = 2`, `i = 1`. -/
theorem construct_copies_buffer_witness :
    (PCLPointCloud.construct (fun k => (k : ℚ)) 0 2)._cloud[1]? =
      some ((3 : ℚ), 4, 5) := by
  have h := (construct_copies_buffer (fun k => (k : ℚ)) 0 2).2 1 (by decide)
  simpa using h

/-- C4: for every strategy in the enum, `PCLPointCloud::build_tree` installs
the corresponding search-structure variant (a KdTree, an Octree with
resolution 128.0, or a BruteForce search), replacing any previously stored
search structure, and sets the stored cloud as its input cloud. -/
theorem build_tree_selects_variant (pc : PCLPointCloud) :
    pc.build_tree SearchStrategy.kdtree =
      some (PCLPointCloud.mk pc._cloud
        (some (SearchStruct.mk SearchVariant.kdtree (some pc._cloud)))) ∧
    pc.build_tree SearchStrategy.octree =
      some (PCLPointCloud.mk pc._cloud
        (some (SearchStruct.mk (SearchVariant.octree 128) (some pc._cloud)))) ∧
    pc.build_tree SearchStrategy.bruteforce =
      some (PCLPointCloud.mk pc._cloud
        (some (SearchStruct.mk SearchVariant.bruteforce (some pc._cloud)))) := by
  refine ⟨?_, ?_, ?_⟩ <;> rfl

/-- C7: `build_tree` dereferences `_search` unconditionally at its end; on a
fresh object (null `_search`) with a strategy value outside the three
enumerators the dereference is undefined behaviour (`none`), while a listed
strategy or a previously installed search structure makes it safe. -/
theorem build_tree_deref_precondition (pc : PCLPointCloud) (strategy : SearchStrategy) :
    (pc._search = none → strategy ≠ SearchStrategy.kdtree →
      strategy ≠ SearchStrategy.octree → strategy ≠ SearchStrategy.bruteforce →
      pc.build_tree strategy = none) ∧
    ((strategy = SearchStrategy.kdtree ∨ strategy = SearchStrategy.octree ∨
        strategy = SearchStrategy.bruteforce ∨ (∃ s, pc._search = some s)) →
      ∃ pc2, pc.build_tree strategy = some pc2) := by
  constructor
  · intro h0 h1 h2 h3
    simp [PCLPointCloud.build_tree, h0, h1, h2, h3]
  · intro h
    rcases h with h | h | h | ⟨s, hs⟩
    · subst h
      exact ⟨_, ((build_tree_selects_variant pc).1)⟩
    · subst h
      exact ⟨_, ((build_tree_selects_variant pc).2.1)⟩
    · subst h
      exact ⟨_, ((build_tree_selects_variant pc).2.2)⟩
    · exact build_tree_of_search_some pc strategy s hs

/-- Witness for C7: on a fresh object, strategy value 5 (outside the enum)
makes `build_tree` hit the null dereference, while `kdtree` succeeds. -/
theorem build_tree_deref_precondition_witness :
    (PCLPointCloud.mk [] none).build_tree 5 = none ∧
    ∃ pc2, (PCLPointCloud.mk [] none).build_tree SearchStrategy.kdtree = some pc2 :=
  ⟨(build_tree_deref_precondition (PCLPointCloud.mk [] none) 5).1 rfl
      (by decide) (by decide) (by decide),
    (build_tree_deref_precondition (PCLPointCloud.mk [] none) SearchStrategy.kdtree).2
      (Or.inl rfl)⟩

/-- C1: `NFPointCloud2::radius_search` forwards to the wrapped nanoflann
index with the radius squared (the call's threshold argument is
`radius * radius`), so the neighbours reported are exactly those the wrapped
library accepts at threshold `r^2`; `PCLPointCloud::radius_search`, by
contrast, passes its radius argument unchanged. -/
theorem radius_search_squares_radius (ρ₁ ρ₂ : Type) :
    (∀ (nflib : KDTree → Mem → Nat → ℚ → List (Nat × ℚ) → SearchParams → ρ₁)
        (mem : Mem) (pc : NFPointCloud2) (t : KDTree) (q : Nat) (r : ℚ)
        (res : List (Nat × ℚ)),
      pc._search = some t →
      NFPointCloud2.radius_search nflib mem pc q r res =
        some (nflib t mem q (r * r) res defaultSearchParams)) ∧
    (∀ (lib : SearchStruct → PointXYZ → ℚ → List Int × List ℚ → ρ₂)
        (pc : PCLPointCloud) (s : SearchStruct) (p : PointXYZ) (r : ℚ)
        (ind : List Int) (dist : List ℚ),
      pc._search = some s →
      PCLPointCloud.radius_search lib pc p r ind dist =
        some (lib s p r (ind, dist))) := by
  constructor
  · intro nflib mem pc t q r res ht
    unfold NFPointCloud2.radius_search
    rw [ht]
  · intro lib pc s p r ind dist hs
    unfold PCLPointCloud.radius_search
    rw [hs]

/-- Witness for C1: a concrete wrapped search that echoes its threshold;
through the adapter it receives `2 * 2 = 4` on the nanoflann side and the
unsquared `2` on the PCL side. -/
theorem radius_search_squares_radius_witness :
    NFPointCloud2.radius_search (fun _ _ _ thr _ _ => thr) (fun _ => 0)
        (NFPointCloud2.mk 0 1 (some (KDTree.mk 3 0 1 10))) 0 2 [] =
      some ((4 : ℚ)) ∧
    PCLPointCloud.radius_search (fun _ _ r2 _ => r2)
        (PCLPointCloud.mk [] (some (SearchStruct.mk SearchVariant.kdtree (some []))))
        ((0 : ℚ), 0, 0) 2 [] [] = some ((2 : ℚ)) := by
  constructor
  · have h := (radius_search_squares_radius ℚ ℚ).1 (fun _ _ _ thr _ _ => thr)
      (fun _ => 0) (NFPointCloud2.mk 0 1 (some (KDTree.mk 3 0 1 10)))
      (KDTree.mk 3 0 1 10) 0 2 [] rfl
    rw [h]
    norm_num
  · have h := (radius_search_squares_radius ℚ ℚ).2 (fun _ _ r2 _ => r2)
      (PCLPointCloud.mk [] (some (SearchStruct.mk SearchVariant.kdtree (some []))))
      (SearchStruct.mk SearchVariant.kdtree (some [])) ((0 : ℚ), 0, 0) 2 [] [] rfl
    rw [h]

/-- The spec's description of `PCLPointCloud::radius_search`, stated in its
own words: a pure pass-through that, when a search structure is installed,
yields exactly the wrapped search structure's `radiusSearch` outcome on the
same arguments, with no transformation applied by the adapter. -/
def pclRadiusSearchSpec {ρ : Type}
    (lib : SearchStruct → PointXYZ → ℚ → List Int × List ℚ → ρ)
    (pc : PCLPointCloud) (p : PointXYZ) (r : ℚ)
    (indices : List Int) (dist : List ℚ) : Option ρ :=
  Option.map (fun s => lib s p r (indices, dist)) pc._search

/-- C3: `PCLPointCloud::radius_search` is a pure pass-through: its outcome
(return value and by-reference vector contents) coincides, as a function,
with the wrapped search structure's `radiusSearch` on the same arguments. -/
theorem radius_search_pass_through (ρ : Type)
    (lib : SearchStruct → PointXYZ → ℚ → List Int × List ℚ → ρ)
    (pc : PCLPointCloud) (p : PointXYZ) (r : ℚ)
    (indices : List Int) (dist : List ℚ) :
    PCLPointCloud.radius_search lib pc p r indices dist =
      pclRadiusSearchSpec lib pc p r indices dist := by
  cases h : pc._search <;>
    simp [PCLPointCloud.radius_search, pclRadiusSearchSpec, h]

/-- C5: each adapter's `radius_search` hands back the wrapped library's
outputs: whenever the wrapped search reports as its return value the number
of neighbours it put into the output container, the adapter's return value
equals the length of the index (resp. result) container it hands back. -/
theorem radius_search_returns_counts :
    (∀ (lib : SearchStruct → PointXYZ → ℚ → List Int × List ℚ →
          (List Int × List ℚ) × Int)
        (pc : PCLPointCloud) (s : SearchStruct) (p : PointXYZ) (r : ℚ)
        (ind : List Int) (dist : List ℚ),
      pc._search = some s →
      (∀ st p2 r2 io, (lib st p2 r2 io).2 = ((lib st p2 r2 io).1.1.length : Int)) →
      ∃ ind2 dist2 ret,
        PCLPointCloud.radius_search lib pc p r ind dist = some ((ind2, dist2), ret) ∧
        ret = (ind2.length : Int)) ∧
    (∀ (nflib : KDTree → Mem → Nat → ℚ → List (Nat × ℚ) → SearchParams →
          List (Nat × ℚ) × Nat)
        (mem : Mem) (pc : NFPointCloud2) (t : KDTree) (q : Nat) (r : ℚ)
        (res : List (Nat × ℚ)),
      pc._search = some t →
      (∀ t2 m2 q2 s2 r2 prm, (nflib t2 m2 q2 s2 r2 prm).2 =
        (nflib t2 m2 q2 s2 r2 prm).1.length) →
      ∃ res2 ret,
        NFPointCloud2.radius_search nflib mem pc q r res = some (res2, ret) ∧
        ret = res2.length) := by
  constructor
  · intro lib pc s p r ind dist hs hcount
    refine ⟨(lib s p r (ind, dist)).1.1, (lib s p r (ind, dist)).1.2,
      (lib s p r (ind, dist)).2, ?_, hcount s p r (ind, dist)⟩
    unfold PCLPointCloud.radius_search
    rw [hs]
  · intro nflib mem pc t q r res ht hcount
    refine ⟨(nflib t mem q (r * r) res defaultSearchParams).1,
      (nflib t mem q (r * r) res defaultSearchParams).2, ?_,
      hcount t mem q (r * r) res defaultSearchParams⟩
    unfold NFPointCloud2.radius_search
    rw [ht]

/-- Witness for C5: a concrete wrapped search returning one neighbour. -/
theorem radius_search_returns_counts_witness :
    (∃ ind2 dist2 ret,
      PCLPointCloud.radius_search (fun _ _ _ _ => (([(7 : Int)], [(2 : ℚ)]), (1 : Int)))
          (PCLPointCloud.mk [] (some (SearchStruct.mk SearchVariant.bruteforce (some []))))
          ((0 : ℚ), 0, 0) 1 [] [] = some ((ind2, dist2), ret) ∧
      ret = (ind2.length : Int)) ∧
    (∃ res2 ret,
      NFPointCloud2.radius_search (fun _ _ _ _ _ _ => ([((5 : Nat), (3 : ℚ))], 1))
          (fun _ => 0) (NFPointCloud2.mk 0 1 (some (KDTree.mk 3 0 1 10))) 0 1 [] =
        some (res2, ret) ∧
      ret = res2.length) :=
  ⟨radius_search_returns_counts.1 (fun _ _ _ _ => (([(7 : Int)], [(2 : ℚ)]), (1 : Int)))
      (PCLPointCloud.mk [] (some (SearchStruct.mk SearchVariant.bruteforce (some []))))
      (SearchStruct.mk SearchVariant.bruteforce (some [])) ((0 : ℚ), 0, 0) 1 [] []
      rfl (fun _ _ _ _ => rfl),
    radius_search_returns_counts.2 (fun _ _ _ _ _ _ => ([((5 : Nat), (3 : ℚ))], 1))
      (fun _ => 0) (NFPointCloud2.mk 0 1 (some (KDTree.mk 3 0 1 10)))
      (KDTree.mk 3 0 1 10) 0 1 [] rfl (fun _ _ _ _ _ _ => rfl)⟩

/-- C6: the adapters introduce no error handling of their own: for a wrapped
search that can fail (`Except`), the adapter's call reports an error exactly
when the wrapped library raises one, and it is the very same error value,
propagated unchanged. -/
theorem no_error_handling (E R₁ R₂ : Type) :
    (∀ (lib : SearchStruct → PointXYZ → ℚ → List Int × List ℚ → Except E R₁)
        (pc : PCLPointCloud) (p : PointXYZ) (r : ℚ)
        (ind : List Int) (dist : List ℚ) (e : E),
      PCLPointCloud.radius_search lib pc p r ind dist = some (Except.error e) ↔
        ∃ s, pc._search = some s ∧ lib s p r (ind, dist) = Except.error e) ∧
    (∀ (nflib : KDTree → Mem → Nat → ℚ → List (Nat × ℚ) → SearchParams → Except E R₂)
        (mem : Mem) (pc : NFPointCloud2) (q : Nat) (r : ℚ)
        (res : List (Nat × ℚ)) (e : E),
      NFPointCloud2.radius_search nflib mem pc q r res = some (Except.error e) ↔
        ∃ t, pc._search = some t ∧
          nflib t mem q (r * r) res defaultSearchParams = Except.error e) := by
  constructor
  · intro lib pc p r ind dist e
    cases h : pc._search <;>
      simp [PCLPointCloud.radius_search, h]
  · intro nflib mem pc q r res e
    cases h : pc._search <;>
      simp [NFPointCloud2.radius_search, h]

/-- C8: both `radius_search` operations dereference the stored search
pointer unconditionally; on a freshly constructed object that pointer is
null, so the call is undefined behaviour (`none`), while after a successful
`build_tree` the null branch is unreachable and the call yields a result. -/
theorem radius_search_requires_build_tree (ρ : Type) :
    (∀ (lib : SearchStruct → PointXYZ → ℚ → List Int × List ℚ → ρ)
        (mem : Mem) (ptr n : Nat) (p : PointXYZ) (r : ℚ)
        (ind : List Int) (dist : List ℚ),
      PCLPointCloud.radius_search lib (PCLPointCloud.construct mem ptr n) p r ind dist =
        none) ∧
    (∀ (nflib : KDTree → Mem → Nat → ℚ → List (Nat × ℚ) → SearchParams → ρ)
        (mem : Mem) (ptr n : Nat) (q : Nat) (r : ℚ) (res : List (Nat × ℚ)),
      NFPointCloud2.radius_search nflib mem (NFPointCloud2.construct ptr n) q r res =
        none) ∧
    (∀ (pc pc2 : PCLPointCloud) (strategy : SearchStrategy),
      pc.build_tree strategy = some pc2 →
      ∀ (lib : SearchStruct → PointXYZ → ℚ → List Int × List ℚ → ρ)
        (p : PointXYZ) (r : ℚ) (ind : List Int) (dist : List ℚ),
      ∃ out, PCLPointCloud.radius_search lib pc2 p r ind dist = some out) ∧
    (∀ (pc : NFPointCloud2) (leaf : Int)
        (nflib : KDTree → Mem → Nat → ℚ → List (Nat × ℚ) → SearchParams → ρ)
        (mem : Mem) (q : Nat) (r : ℚ) (res : List (Nat × ℚ)),
      ∃ out, NFPointCloud2.radius_search nflib mem (pc.build_tree leaf) q r res =
        some out) := by
  refine ⟨fun lib mem ptr n p r ind dist => rfl,
    fun nflib mem ptr n q r res => rfl, ?_, fun pc leaf nflib mem q r res => ⟨_, rfl⟩⟩
  intro pc pc2 strategy h lib p r ind dist
  obtain ⟨st, hst⟩ := build_tree_search_isSome h
  unfold PCLPointCloud.radius_search
  rw [hst]
  exact ⟨_, rfl⟩

/-- Witness for C8: a fresh `PCLPointCloud` makes `radius_search` hit the
null dereference, and after `build_tree` it yields a result. -/
theorem radius_search_requires_build_tree_witness :
    PCLPointCloud.radius_search (fun _ _ _ _ => (0 : Nat))
        (PCLPointCloud.construct (fun _ => 0) 0 0) ((0 : ℚ), 0, 0) 1 [] [] = none ∧
    ∃ out, PCLPointCloud.radius_search (fun _ _ _ _ => (0 : Nat))
        (PCLPointCloud.mk []
          (some (SearchStruct.mk SearchVariant.kdtree (some []))))
        ((0 : ℚ), 0, 0) 1 [] [] = some out :=
  ⟨(radius_search_requires_build_tree Nat).1 (fun _ _ _ _ => (0 : Nat))
      (fun _ => 0) 0 0 ((0 : ℚ), 0, 0) 1 [] [],
    (radius_search_requires_build_tree Nat).2.2.1 (PCLPointCloud.mk [] none) _
      SearchStrategy.kdtree rfl (fun _ _ _ _ => (0 : Nat)) ((0 : ℚ), 0, 0) 1 [] []⟩

/-- C9: ownership of the coordinate buffer differs between the adapters: the
`PCLPointCloud` constructor copies all `3*n` floats (its state depends only
on the buffer contents at construction time), while the `NFPointCloud2`
constructor stores only the raw pointer and count, its searches hand the
wrapped library the memory current at query time through that pointer, and
two different memory states can make the same search call answer
differently. -/
theorem buffer_ownership_copy_vs_reference :
    (∀ (m1 m2 : Mem) (ptr n : Nat),
      (∀ k, k < 3 * n → m1 (ptr + k) = m2 (ptr + k)) →
      PCLPointCloud.construct m1 ptr n = PCLPointCloud.construct m2 ptr n) ∧
    (∀ ptr n, NFPointCloud2.construct ptr n = NFPointCloud2.mk ptr n none) ∧
    (∀ (ρ : Type) (nflib : KDTree → Mem → Nat → ℚ → List (Nat × ℚ) → SearchParams → ρ)
        (mem : Mem) (pc : NFPointCloud2) (leaf : Int) (q : Nat) (r : ℚ)
        (res : List (Nat × ℚ)),
      NFPointCloud2.radius_search nflib mem (pc.build_tree leaf) q r res =
        some (nflib (KDTree.mk 3 pc.data pc.n leaf) mem q (r * r) res
          defaultSearchParams)) ∧
    (∃ (nflib : KDTree → Mem → Nat → ℚ → List (Nat × ℚ) → SearchParams →
          List (Nat × ℚ) × Nat)
        (m1 m2 : Mem) (q : Nat) (r : ℚ) (res : List (Nat × ℚ)),
      NFPointCloud2.radius_search nflib m1
          ((NFPointCloud2.construct 0 1).build_tree 10) q r res ≠
        NFPointCloud2.radius_search nflib m2
          ((NFPointCloud2.construct 0 1).build_tree 10) q r res) := by
  refine ⟨?_, fun ptr n => rfl, fun ρ nflib mem pc leaf q r res => rfl, ?_⟩
  · intro m1 m2 ptr n h
    unfold PCLPointCloud.construct
    rw [pclConstructLoop_eq m1 ptr n _ (by simp),
      pclConstructLoop_eq m2 ptr n _ (by simp)]
    have hmap : (List.range n).map (pclPointAt m1 ptr) =
        (List.range n).map (pclPointAt m2 ptr) := by
      apply List.map_congr_left
      intro i hi
      have hin : i < n := List.mem_range.mp hi
      have e1 := h (3 * i) (by omega)
      have e2 := h (3 * i + 1) (by omega)
      have e3 := h (3 * i + 2) (by omega)
      rw [← Nat.add_assoc] at e2 e3
      unfold pclPointAt
      rw [e1, e2, e3]
    rw [hmap]
  · refine ⟨fun t m _ _ _ _ => ([], if m t.dataPtr = 0 then 0 else 1),
      fun _ => 0, fun _ => 1, 0, 1, [], ?_⟩
    simp [NFPointCloud2.radius_search, NFPointCloud2.build_tree,
      NFPointCloud2.construct]

/-- Witness for C9: two memories agreeing on the three copied cells (but
nowhere else) yield the same constructed `PCLPointCloud`. -/
theorem buffer_ownership_copy_vs_reference_witness :
    PCLPointCloud.construct (fun _ => (0 : ℚ)) 0 1 =
      PCLPointCloud.construct (fun k => if k < 3 then (0 : ℚ) else 7) 0 1 :=
  buffer_ownership_copy_vs_reference.1 (fun _ => (0 : ℚ))
    (fun k => if k < 3 then (0 : ℚ) else 7) 0 1
    (fun k hk => by
      have hk3 : k < 3 := by omega
      simp [hk3])

end py4dgeo
